import Mathlib

/-!
Verification of the news-assistant session store and retrieval pipeline.

The definitions below are a shallow embedding of the JavaScript sources:
`src/services/sessionManager.js` (Redis-backed session store),
`src/services/streamingRagPipeline.js` and the non-streaming `RAGPipeline`
(the retrieval-augmented orchestrator), and the `send-message` handler of
`src/routes/socketChat.js`.  Redis is modelled as an explicit association
list from keys to values paired with an absolute expiry instant; the wall
clock is passed to every operation as a natural number `now`.  The external
collaborators (embedding API, vector search, generation model) are modelled
as oracle outcomes supplied as arguments.
-/

namespace NewsAssistant

/-! ## JavaScript string and array primitives -/

/-- Whitespace test used by the JavaScript `trim`. -/
def wsp (c : Char) : Bool := c.isWhitespace

/-- Remove trailing whitespace characters from a character list. -/
def trimRightL (l : List Char) : List Char := ((l.reverse).dropWhile wsp).reverse

/-- Remove leading and trailing whitespace characters, as JavaScript
`String.prototype.trim` does. -/
def jsTrimL (l : List Char) : List Char := (trimRightL l).dropWhile wsp

/-- JavaScript `s.trim()` on Lean strings. -/
def jsTrim (s : String) : String := ⟨jsTrimL s.data⟩

/-- JavaScript `s.substring(0, n)`: the first `n` characters. -/
def jsTake (s : String) (n : Nat) : String := ⟨s.data.take n⟩

/-- JavaScript `arr.slice(b)` for a possibly negative start index `b`:
a negative index counts from the end of the array. -/
def jsSlice {α : Type} (xs : List α) (start : Int) : List α :=
  xs.drop ((if start < 0 then max ((xs.length : Int) + start) 0
            else min start (xs.length : Int)).toNat)

/-! ## Key-value store primitives (the Redis model) -/

/-- Look a key up in an association list. -/
def kvGet {α : Type} (l : List (String × α)) (k : String) : Option α :=
  (l.find? (fun p => p.1 == k)).map (·.2)

/-- Bind a key in an association list, replacing any previous binding. -/
def kvSet {α : Type} (l : List (String × α)) (k : String) (v : α) : List (String × α) :=
  (k, v) :: l.filter (fun p => p.1 != k)

/-! ## Data model -/

/-- A cited article as returned to callers of the pipeline
(the `sources` projection `{title, url, source, publishedAt, score}`). -/
structure Source where
  title : String
  url : String
  source : String
  publishedAt : String
  score : Int
deriving DecidableEq, Repr

/-- A retrieved article as produced by `vectorStore.searchSimilar`. -/
structure Article where
  id : Nat
  score : Int
  title : String
  url : String
  publishedAt : String
  source : String
  description : Option String
  content : Option String
deriving DecidableEq, Repr

/-- A JSON-like field value stored inside a chat turn. -/
inductive JVal where
  | s (v : String)
  | n (v : Nat)
  | srcs (v : List Source)
deriving DecidableEq, Repr

/-- A chat turn is a JavaScript object: a finite list of named fields.
Lookup takes the first binding of a name. -/
def Msg : Type := List (String × JVal)

instance : DecidableEq Msg := by unfold Msg; infer_instance

/-- Read a field of a chat-turn object. -/
def getField (m : Msg) (k : String) : Option JVal :=
  (m.find? (fun p => p.1 == k)).map (·.2)

/-- JavaScript spread-and-override `{...m, k: v}`, observed through `getField`. -/
def setField (m : Msg) (k : String) (v : JVal) : Msg :=
  m.filter (fun p => p.1 != k) ++ [(k, v)]

/-- Session metadata as stored under the `session:` key. -/
structure SessionData where
  id : String
  title : String
  createdAt : Nat
  lastActivity : Nat
  messageCount : Nat
  isActive : Bool
deriving DecidableEq, Repr

/-- The Redis state owned by the session manager: session metadata records and
chat history records, each carrying an absolute expiry instant.  A record whose
expiry is not in the future behaves exactly like an absent key. -/
structure Store where
  sessions : List (String × (SessionData × Nat))
  histories : List (String × (List Msg × Nat))
deriving DecidableEq

/-- The empty store. -/
def Store.empty : Store := ⟨[], []⟩

/-! ## Session manager (`src/services/sessionManager.js`) -/

/-- The retention window: `this.sessionTTL = 24 * 60 * 60` seconds. -/
def sessionTTL : Nat := 24 * 60 * 60

/-- The title coercion `title && title.trim() !== "" ? title.trim() : "New Chat"`
shared by `createSession` and `updateSessionTitle`; `none` models a missing or
null argument. -/
def safeTitleOf (title : Option String) : String :=
  match title with
  | some t => if t ≠ "" ∧ jsTrim t ≠ "" then jsTrim t else "New Chat"
  | none => "New Chat"

/-- Embedding of `createSession(title = "New Chat")`.  The generated session id is passed
explicitly; passing `none` for the title models both an omitted argument and a
null one (both coerce to the default). -/
def createSession (st : Store) (now : Nat) (sessionId : String)
    (title : Option String) : Store × String :=
  let sessionData : SessionData :=
    { id := sessionId, title := safeTitleOf title, createdAt := now,
      lastActivity := now, messageCount := 0, isActive := true }
  ({ sessions := kvSet st.sessions sessionId (sessionData, now + sessionTTL),
     histories := kvSet st.histories sessionId ([], now + sessionTTL) }, sessionId)

/-- Embedding of `getSession(sessionId)`: `null` when the key is absent or expired. -/
def getSession (st : Store) (now : Nat) (sessionId : String) : Option SessionData :=
  match kvGet st.sessions sessionId with
  | some (d, expiry) => if now < expiry then some d else none
  | none => none

/-- Embedding of `sessionExists(sessionId)`. -/
def sessionExists (st : Store) (now : Nat) (sessionId : String) : Bool :=
  match kvGet st.sessions sessionId with
  | some (_, expiry) => now < expiry
  | none => false

/-- Embedding of `updateSessionActivity(sessionId)`: bump `lastActivity` and `messageCount`,
re-`setex` the metadata record, and `expire` (refresh) the history record. -/
def updateSessionActivity (st : Store) (now : Nat) (sessionId : String) :
    Store × Bool :=
  match getSession st now sessionId with
  | none => (st, false)
  | some d =>
    let d' := { d with lastActivity := now, messageCount := d.messageCount + 1 }
    let sessions' := kvSet st.sessions sessionId (d', now + sessionTTL)
    let histories' :=
      match kvGet st.histories sessionId with
      | some (h, expiry) =>
        if now < expiry then kvSet st.histories sessionId (h, now + sessionTTL)
        else st.histories
      | none => st.histories
    ({ sessions := sessions', histories := histories' }, true)

/-- Embedding of `getChatHistory(sessionId, limit = 50)`: `null` when the history key is
absent or expired, otherwise `chatHistory.slice(-limit)`. -/
def getChatHistory (st : Store) (now : Nat) (sessionId : String)
    (limit : Int) : Option (List Msg) :=
  match kvGet st.histories sessionId with
  | some (h, expiry) => if now < expiry then some (jsSlice h (-limit)) else none
  | none => none

/-- Embedding of `addMessage(sessionId, message)`: read the history through the default
50-turn window, append the turn with a store-assigned timestamp, `setex` the
history, then update session activity. -/
def addMessage (st : Store) (now : Nat) (sessionId : String) (message : Msg) :
    Except String (Store × Msg) :=
  match getChatHistory st now sessionId 50 with
  | none => .error "Session not found"
  | some chatHistory =>
    let messageData := setField message "timestamp" (JVal.n now)
    let newHistory := chatHistory ++ [messageData]
    let st₁ : Store :=
      { st with histories := kvSet st.histories sessionId (newHistory, now + sessionTTL) }
    let st₂ := (updateSessionActivity st₁ now sessionId).1
    .ok (st₂, messageData)

/-- Embedding of `clearChatHistory(sessionId)`: `setex` the history record back to `[]`. -/
def clearChatHistory (st : Store) (now : Nat) (sessionId : String) : Store :=
  { st with histories := kvSet st.histories sessionId ([], now + sessionTTL) }

/-- Embedding of `updateSessionTitle(sessionId, newTitle)`: fails when the session is
absent, coerces blank titles to the default, bumps `lastActivity`, and
re-`setex`es the metadata record only. -/
def updateSessionTitle (st : Store) (now : Nat) (sessionId : String)
    (newTitle : Option String) : Except String (Store × SessionData) :=
  match getSession st now sessionId with
  | none => .error "Session not found"
  | some d =>
    let d' := { d with title := safeTitleOf newTitle, lastActivity := now }
    .ok ({ st with sessions := kvSet st.sessions sessionId (d', now + sessionTTL) }, d')

/-- Embedding of `autoGenerateTitle(sessionId, firstMessage)`: no-op for a missing or blank
message; otherwise truncate the trimmed message to 47 characters plus an
ellipsis when longer than 50 characters and store it via `updateSessionTitle`;
on failure, fall back to assigning the default title. -/
def autoGenerateTitle (st : Store) (now : Nat) (sessionId : String)
    (firstMessage : Option String) : Store :=
  match firstMessage with
  | none => st
  | some m =>
    if (jsTrim m).length = 0 then st
    else
      let trimmedMessage := jsTrim m
      let title :=
        if trimmedMessage.length > 50 then jsTake trimmedMessage 47 ++ "..."
        else trimmedMessage
      match updateSessionTitle st now sessionId (some title) with
      | .ok (st', _) => st'
      | .error _ =>
        match updateSessionTitle st now sessionId (some "New Chat") with
        | .ok (st', _) => st'
        | .error _ => st

/-! ## Pipeline orchestrator
(`src/services/streamingRagPipeline.js` and the non-streaming `RAGPipeline`) -/

/-- The outcome of one call to the generation model: the text fragments the
stream yielded, followed by an optional failure.  A whole-response call yields
the concatenation of the fragments, or the failure. -/
structure GenOutcome where
  chunks : List String
  failure : Option String
deriving DecidableEq, Repr

/-- Outcomes of the three external collaborators for one query:
the embedding call, the vector search, and the generation model. -/
structure Oracles where
  embed : Except String (List Int)
  search : Except String (List Article)
  gen : GenOutcome

/-- The socket events the pipeline and the `send-message` handler emit. -/
inductive Event where
  | streamChunk (chunk : String) (sessionId : Option String)
  | streamComplete (response : String) (sources : List Source)
      (sessionId : Option String) (error : Option String)
  | userMessage (message : String) (sessionId : String)
  | assistantMessage (response : String) (sources : List Source) (sessionId : String)
  | errorEvt (message : String) (details : Option String)
deriving DecidableEq, Repr

/-- The value returned by every pipeline entry point. -/
structure PipelineResult where
  response : String
  sources : List Source
  sessionId : Option String
  error : Option String
deriving DecidableEq, Repr

/-- The `{title, url, source, publishedAt, score}` projection applied to the
retrieved articles before they are returned or emitted. -/
def mapSources (articles : List Article) : List Source :=
  articles.map (fun a =>
    { title := a.title, url := a.url, source := a.source,
      publishedAt := a.publishedAt, score := a.score })

/-- The fixed fallback when the retrieval step yields zero articles. -/
def noArticlesResponse : String :=
  "I couldn\x27t find any relevant news articles to answer your question. Please try rephrasing your question or ask about a different topic."

/-- The fixed fallback returned from the orchestrator-level catch block. -/
def errorResponse : String :=
  "I\x27m sorry, I encountered an error while processing your question. Please try again later."

/-- The titles of the retrieved articles joined with ", ". -/
def joinedTitles (sources : List Article) : String :=
  String.intercalate ", " (sources.map (·.title))

/-- Fallback of the streaming non-contextual generation step. -/
def streamGenFallback (sources : List Article) : String :=
  "Based on recent news, I found some relevant articles but couldn\x27t generate a detailed response. Here are the key sources that might help: "
    ++ joinedTitles sources ++ "."

/-- Fallback of the contextual generation steps (streaming and whole). -/
def ctxGenFallback (sources : List Article) : String :=
  "Based on our conversation and recent news, I found some relevant articles but couldn\x27t generate a detailed response. Here are the key sources that might help: "
    ++ joinedTitles sources ++ "."

/-- Fallback of the non-streaming, non-contextual generation step. -/
def plainGenFallback (sources : List Article) : String :=
  "Based on recent news, I found some relevant articles but couldn\x27t generate a detailed response. Here are the key sources that might help answer your question: "
    ++ joinedTitles sources ++ "."

/-- Embedding of `prepareContext(articles)`: the grounding context assembled from the
retrieved articles, with each content excerpt capped at 1000 characters. -/
def prepareContext (articles : List Article) : String :=
  "Based on the following recent news articles:\n\n"
    ++ String.join (articles.enum.map (fun p =>
      "Article " ++ toString (p.1 + 1) ++ ": " ++ p.2.title ++ "\n"
        ++ "Source: " ++ p.2.source ++ "\n"
        ++ "Published: " ++ p.2.publishedAt ++ "\n"
        ++ (match p.2.description with
            | some d => if d = "" then "" else "Summary: " ++ d ++ "\n"
            | none => "")
        ++ (match p.2.content with
            | some c => if c = "" then "" else "Content: " ++ jsTake c 1000 ++ "\n"
            | none => "")
        ++ "\n"))

/-- One line of the conversation context for a stored turn. -/
def msgLine (m : Msg) : String :=
  match getField m "type", getField m "content" with
  | some (JVal.s "user"), some (JVal.s c) => "User: " ++ c ++ "\n"
  | some (JVal.s "assistant"), some (JVal.s c) => "Assistant: " ++ c ++ "\n"
  | _, _ => ""

/-- Embedding of `getConversationContext(chatHistory, maxHistoryLength = 10)`. -/
def getConversationContext (chatHistory : Option (List Msg))
    (maxHistoryLength : Nat) : String :=
  match chatHistory with
  | none => ""
  | some h =>
    if h.isEmpty then ""
    else
      "Previous conversation context:\n"
        ++ String.join ((jsSlice h (-(maxHistoryLength : Int))).map msgLine)
        ++ "\n"

/-- Embedding of `generateContextualStreamingResponse`: stream the generated fragments as
`stream-chunk` events, then emit exactly one `stream-complete` event carrying
either the full concatenated text or the fixed contextual fallback. -/
def generateContextualStreamingResponse (gen : GenOutcome) (sources : List Article)
    (sessionId : Option String) (socket : Bool) : String × List Event :=
  let chunkEvents :=
    if socket then gen.chunks.map (fun c => Event.streamChunk c sessionId) else []
  match gen.failure with
  | none =>
    let fullResponse := String.join gen.chunks
    (fullResponse,
     chunkEvents ++
       (if socket then
          [Event.streamComplete fullResponse (mapSources sources) sessionId none]
        else []))
  | some _ =>
    let fallback := ctxGenFallback sources
    (fallback,
     chunkEvents ++
       (if socket then
          [Event.streamComplete fallback (mapSources sources) sessionId none]
        else []))

/-- Embedding of `generateStreamingResponse`: as above but with the non-contextual
fallback wording. -/
def generateStreamingResponse (gen : GenOutcome) (sources : List Article)
    (sessionId : Option String) (socket : Bool) : String × List Event :=
  let chunkEvents :=
    if socket then gen.chunks.map (fun c => Event.streamChunk c sessionId) else []
  match gen.failure with
  | none =>
    let fullResponse := String.join gen.chunks
    (fullResponse,
     chunkEvents ++
       (if socket then
          [Event.streamComplete fullResponse (mapSources sources) sessionId none]
        else []))
  | some _ =>
    let fallback := streamGenFallback sources
    (fallback,
     chunkEvents ++
       (if socket then
          [Event.streamComplete fallback (mapSources sources) sessionId none]
        else []))

/-- Embedding of `processQueryWithContextStream(query, chatHistory, sessionId, socket)`:
the contextual streaming entry point.  Every internal failure is caught; the
function is total and always returns a `PipelineResult` together with the
events emitted when a socket is attached. -/
def processQueryWithContextStream (o : Oracles) (query : String)
    (chatHistory : Option (List Msg)) (sessionId : Option String)
    (socket : Bool) : PipelineResult × List Event :=
  let _conversationContext := getConversationContext chatHistory 10
  match o.embed with
  | .error e =>
    ({ response := errorResponse, sources := [], sessionId, error := some e },
     if socket then [Event.streamComplete errorResponse [] sessionId (some e)] else [])
  | .ok _ =>
    match o.search with
    | .error e =>
      ({ response := errorResponse, sources := [], sessionId, error := some e },
       if socket then [Event.streamComplete errorResponse [] sessionId (some e)] else [])
    | .ok relevantArticles =>
      if relevantArticles.isEmpty then
        ({ response := noArticlesResponse, sources := [], sessionId, error := none },
         if socket then [Event.streamComplete noArticlesResponse [] sessionId none] else [])
      else
        let _fullContext := _conversationContext ++ prepareContext relevantArticles
        let gr := generateContextualStreamingResponse o.gen relevantArticles sessionId socket
        ({ response := gr.1, sources := mapSources relevantArticles, sessionId,
           error := none }, gr.2)

/-- Embedding of `processQueryStream(query, sessionId, socket)`: the non-contextual
streaming entry point. -/
def processQueryStream (o : Oracles) (query : String) (sessionId : Option String)
    (socket : Bool) : PipelineResult × List Event :=
  match o.embed with
  | .error e =>
    ({ response := errorResponse, sources := [], sessionId, error := some e },
     if socket then [Event.streamComplete errorResponse [] sessionId (some e)] else [])
  | .ok _ =>
    match o.search with
    | .error e =>
      ({ response := errorResponse, sources := [], sessionId, error := some e },
       if socket then [Event.streamComplete errorResponse [] sessionId (some e)] else [])
    | .ok relevantArticles =>
      if relevantArticles.isEmpty then
        ({ response := noArticlesResponse, sources := [], sessionId, error := none },
         if socket then [Event.streamComplete noArticlesResponse [] sessionId none] else [])
      else
        let _context := prepareContext relevantArticles
        let gr := generateStreamingResponse o.gen relevantArticles sessionId socket
        ({ response := gr.1, sources := mapSources relevantArticles, sessionId,
           error := none }, gr.2)

/-- Embedding of `generateResponse` of the non-streaming `RAGPipeline`: the whole generated
text, or the non-contextual fallback when the model call fails. -/
def generateResponse (gen : GenOutcome) (sources : List Article) : String :=
  match gen.failure with
  | none => String.join gen.chunks
  | some _ => plainGenFallback sources

/-- Embedding of `generateContextualResponse` of the non-streaming `RAGPipeline`. -/
def generateContextualResponse (gen : GenOutcome) (sources : List Article) : String :=
  match gen.failure with
  | none => String.join gen.chunks
  | some _ => ctxGenFallback sources

/-- Embedding of `RAGPipeline.processQuery(query, sessionId)`: the non-streaming entry
point; total, every internal failure becomes a degraded result. -/
def processQuery (o : Oracles) (query : String) (sessionId : Option String) :
    PipelineResult :=
  match o.embed with
  | .error e => { response := errorResponse, sources := [], sessionId, error := some e }
  | .ok _ =>
    match o.search with
    | .error e => { response := errorResponse, sources := [], sessionId, error := some e }
    | .ok relevantArticles =>
      if relevantArticles.isEmpty then
        { response := noArticlesResponse, sources := [], sessionId, error := none }
      else
        let _context := prepareContext relevantArticles
        { response := generateResponse o.gen relevantArticles,
          sources := mapSources relevantArticles, sessionId, error := none }

/-- Embedding of `RAGPipeline.processQueryWithContext(query, chatHistory, sessionId)`. -/
def processQueryWithContext (o : Oracles) (query : String)
    (chatHistory : Option (List Msg)) (sessionId : Option String) :
    PipelineResult :=
  let _conversationContext := getConversationContext chatHistory 10
  match o.embed with
  | .error e => { response := errorResponse, sources := [], sessionId, error := some e }
  | .ok _ =>
    match o.search with
    | .error e => { response := errorResponse, sources := [], sessionId, error := some e }
    | .ok relevantArticles =>
      if relevantArticles.isEmpty then
        { response := noArticlesResponse, sources := [], sessionId, error := none }
      else
        let _fullContext := _conversationContext ++ prepareContext relevantArticles
        { response := generateContextualResponse o.gen relevantArticles,
          sources := mapSources relevantArticles, sessionId, error := none }

/-! ## The socket `send-message` handler (`src/routes/socketChat.js`) -/

/-- The auto-title step of the `send-message` handler: a brand-new session is
always auto-titled from the first message; an existing session is auto-titled
when its title is still the default and its history holds exactly the
just-added user turn. -/
def maybeAutoTitle (st2 : Store) (now : Nat) (csid : String)
    (isNewSession : Bool) (mt : String) : Store :=
  if isNewSession then autoGenerateTitle st2 now csid (some mt)
  else
    match getSession st2 now csid, getChatHistory st2 now csid 50 with
    | some d, some h =>
      if d.title = "New Chat" ∧ h.length = 1 then
        autoGenerateTitle st2 now csid (some mt)
      else st2
    | _, _ => st2

/-- The post-resolution body of the `send-message` handler, on the resolved
store `st1`, session id `csid`, and trimmed message `mt`: fetch context,
persist the user turn, maybe auto-title, run the streaming pipeline, persist
the assistant turn.  Any store failure is caught and surfaced as an `error`
event. -/
def sendMessageCore (st1 : Store) (now : Nat) (csid : String)
    (isNewSession : Bool) (o : Oracles) (mt : String) : Store × List Event :=
  let chatHistory := getChatHistory st1 now csid 50
  match addMessage st1 now csid [("type", JVal.s "user"), ("content", JVal.s mt)] with
  | .error e => (st1, [Event.errorEvt "Internal server error" (some e)])
  | .ok (st2, _) =>
    let st3 := maybeAutoTitle st2 now csid isNewSession mt
    let pipe := processQueryWithContextStream o mt chatHistory (some csid) true
    match addMessage st3 now csid
        [("type", JVal.s "assistant"), ("content", JVal.s pipe.1.response),
         ("sources", JVal.srcs pipe.1.sources)] with
    | .error e =>
      (st3, Event.userMessage mt csid :: pipe.2
              ++ [Event.errorEvt "Internal server error" (some e)])
    | .ok (st4, _) =>
      (st4, Event.userMessage mt csid :: pipe.2
              ++ [Event.assistantMessage pipe.1.response pipe.1.sources csid])

/-- Session resolution of the `send-message` handler: keep a supplied id that
exists, otherwise create a fresh session.  Returns the updated store, the
current session id, and whether the session is new. -/
def resolveTarget (st : Store) (now : Nat) (newSessionId : String)
    (sessionId : Option String) : Store × String × Bool :=
  match sessionId with
  | none => ((createSession st now newSessionId none).1, newSessionId, true)
  | some sid =>
    if sessionExists st now sid then (st, sid, false)
    else ((createSession st now newSessionId none).1, newSessionId, true)

/-- The `send-message` handler: validate the message, resolve the session
(creating one when the id is missing or unknown), then run the post-resolution
body.  Returns the final store and all events emitted to the requesting socket
in order. -/
def handleSendMessage (st : Store) (now : Nat) (newSessionId : String)
    (o : Oracles) (message : String) (sessionId : Option String) :
    Store × List Event :=
  if (jsTrim message).length = 0 then
    (st, [Event.errorEvt "Message is required and must be a non-empty string" none])
  else
    sendMessageCore (resolveTarget st now newSessionId sessionId).1 now
      (resolveTarget st now newSessionId sessionId).2.1
      (resolveTarget st now newSessionId sessionId).2.2 o (jsTrim message)

/-- Resolution-time liveness assumption for `send-message`: whenever the
caller names a session that `sessionExists` accepts, that session's history
record is itself live.  (Fresh or recreated sessions always satisfy this.) -/
def resolvedHistoryLive (st : Store) (now : Nat) (sid : Option String) : Prop :=
  ∀ s, sid = some s → sessionExists st now s = true →
    ∃ h e, kvGet st.histories s = some (h, e) ∧ now < e

/-! ## Event observations -/

/-- Is an event a `stream-complete` event? -/
def isStreamComplete : Event → Bool
  | .streamComplete .. => true
  | _ => false

/-- The number of `stream-complete` events in an emission trace. -/
def countStreamComplete (evts : List Event) : Nat := evts.countP isStreamComplete

/-- The `response` fields of the `stream-complete` events, in order. -/
def completeResponses (evts : List Event) : List String :=
  evts.filterMap (fun e =>
    match e with
    | .streamComplete r _ _ _ => some r
    | _ => none)

/-- The `stream-chunk` payloads of an emission trace, in order. -/
def streamChunkTexts (evts : List Event) : List String :=
  evts.filterMap (fun e =>
    match e with
    | .streamChunk c _ => some c
    | _ => none)

/-- The in-order concatenation of all `stream-chunk` payloads. -/
def chunkConcat (evts : List Event) : String :=
  String.join (streamChunkTexts evts)

/-! ## Basic lemmas about the primitives -/

lemma find?_filter_ne {α : Type} (l : List (String × α)) (k k' : String) (h : k' ≠ k) :
    (l.filter (fun p => p.1 != k)).find? (fun p => p.1 == k') =
      l.find? (fun p => p.1 == k') := by
  induction l with
  | nil => rfl
  | cons a t ih =>
    by_cases hk : a.1 = k
    · have h1 : (a.1 != k) = false := by simp [hk]
      have h2 : (a.1 == k') = false := by simp [hk]; exact fun hh => h hh.symm
      simp [List.filter_cons, h1, List.find?_cons, h2, ih]
    · have h1 : (a.1 != k) = true := by simp [hk]
      by_cases hk' : a.1 = k'
      · simp [List.filter_cons, h1, List.find?_cons, hk', h]
      · have h2 : (a.1 == k') = false := by simp [hk']
        simp [List.filter_cons, h1, List.find?_cons, h2, ih]

lemma kvGet_kvSet_self {α : Type} (l : List (String × α)) (k : String) (v : α) :
    kvGet (kvSet l k v) k = some v := by
  simp [kvGet, kvSet, List.find?_cons]

lemma kvGet_kvSet_ne {α : Type} (l : List (String × α)) (k k' : String) (v : α)
    (h : k' ≠ k) : kvGet (kvSet l k v) k' = kvGet l k' := by
  have h2 : (k == k') = false := by simp; exact fun hh => h hh.symm
  simp only [kvGet, kvSet, List.find?_cons, h2]
  rw [find?_filter_ne l k k' h]

lemma getField_setField_self (m : Msg) (k : String) (v : JVal) :
    getField (setField m k v) k = some v := by
  have hnone : (m.filter (fun p => p.1 != k)).find? (fun p => p.1 == k) = none := by
    rw [List.find?_eq_none]
    intro x hx
    have := (List.mem_filter.mp hx).2
    simpa using this
  simp [getField, setField, List.find?_append, hnone, List.find?_cons]

lemma getField_setField_ne (m : Msg) (k k' : String) (v : JVal) (h : k' ≠ k) :
    getField (setField m k v) k' = getField m k' := by
  have h2 : (k == k') = false := by simp; exact fun hh => h hh.symm
  simp only [getField, setField, List.find?_append, find?_filter_ne m k k' h,
    List.find?_cons, h2, List.find?_nil]
  cases m.find? (fun p => p.1 == k') <;> rfl

lemma jsSlice_zero {α : Type} (l : List α) : jsSlice l 0 = l := by
  simp [jsSlice]

lemma jsSlice_of_le {α : Type} (l : List α) (limit : Int)
    (h : (l.length : Int) ≤ limit) : jsSlice l (-limit) = l := by
  unfold jsSlice
  by_cases hneg : -limit < 0
  · rw [if_pos hneg]
    have h0 : max ((l.length : Int) + -limit) 0 = 0 := max_eq_right (by omega)
    rw [h0]
    rfl
  · rw [if_neg hneg]
    have hlen : (l.length : Int) = 0 := by omega
    have h0 : min (-limit) ((l.length : Int)) = (l.length : Int) :=
      min_eq_right (by omega)
    rw [h0, hlen]
    rfl

lemma jsSlice_append_last {α : Type} (xs : List α) (u : α) :
    ∃ ys, jsSlice (xs ++ [u]) (-(50 : Int)) = ys ++ [u] := by
  unfold jsSlice
  have hneg : -(50 : Int) < 0 := by omega
  rw [if_pos hneg]
  set b : Int := max (((xs ++ [u]).length : Int) + -50) 0 with hb
  have hlen : ((xs ++ [u]).length : Int) = (xs.length : Int) + 1 := by simp
  have hb0 : 0 ≤ b := le_max_right _ _
  have hble : b.toNat ≤ xs.length := by
    have hbv : b ≤ (xs.length : Int) := by
      rw [hb]
      apply max_le (by omega) (by omega)
    omega
  refine ⟨xs.drop b.toNat, ?_⟩
  rw [List.drop_append_eq_append_drop]
  have h0 : b.toNat - xs.length = 0 := by omega
  rw [h0]
  rfl

lemma length_pos_of_ne_empty (s : String) (h : s ≠ "") : 0 < s.length := by
  cases s with
  | mk d =>
    cases d with
    | nil => exact absurd rfl h
    | cons a t => simp [String.length]

lemma ne_empty_of_length_pos (s : String) (h : 0 < s.length) : s ≠ "" := by
  intro he
  rw [he] at h
  simp [String.length] at h

lemma dropWhile_idem {α : Type} (p : α → Bool) (l : List α) :
    (l.dropWhile p).dropWhile p = l.dropWhile p := by
  induction l with
  | nil => rfl
  | cons a t ih =>
    by_cases h : p a
    · simp [List.dropWhile_cons, h, ih]
    · simp [List.dropWhile_cons, h]

lemma dropWhile_head_false {α : Type} (p : α → Bool) (l : List α) (a : α)
    (t : List α) (h : l.dropWhile p = a :: t) : p a = false := by
  induction l with
  | nil => simp [List.dropWhile] at h
  | cons b l' ih =>
    by_cases hb : p b
    · rw [List.dropWhile_cons, if_pos hb] at h
      exact ih h
    · rw [List.dropWhile_cons, if_neg hb] at h
      injection h with h1 _
      rw [← h1]
      simpa using hb

lemma dropWhile_getLast? {α : Type} (p : α → Bool) (l : List α) :
    l.dropWhile p = [] ∨ (l.dropWhile p).getLast? = l.getLast? := by
  induction l with
  | nil => left; rfl
  | cons a t ih =>
    by_cases h : p a
    · rw [List.dropWhile_cons, if_pos h]
      rcases ih with h0 | h1
      · left; exact h0
      · cases t with
        | nil => left; rfl
        | cons b t' =>
          right
          rw [h1]
          simp [List.getLast?_cons_cons]
    · rw [List.dropWhile_cons, if_neg h]
      right; rfl

lemma head?_dropWhile_false {α : Type} (p : α → Bool) (l : List α) (a : α)
    (h : (l.dropWhile p).head? = some a) : p a = false := by
  cases hd : l.dropWhile p with
  | nil => rw [hd] at h; cases h
  | cons c t =>
    rw [hd] at h
    injection h with h1
    rw [← h1]
    exact dropWhile_head_false p l c t hd

lemma trimRightL_reverse (l : List Char) :
    (trimRightL l).reverse = l.reverse.dropWhile wsp := by
  simp [trimRightL]

lemma jsTrimL_idem (l : List Char) : jsTrimL (jsTrimL l) = jsTrimL l := by
  have htr : trimRightL (jsTrimL l) = jsTrimL l := by
    unfold trimRightL
    cases hB : (jsTrimL l).reverse with
    | nil =>
      have h0 : jsTrimL l = [] := by simpa using congrArg List.reverse hB
      simp [h0]
    | cons c r =>
      have hc : wsp c = false := by
        have hlast : (jsTrimL l).getLast? = some c := by
          rw [← List.head?_reverse, hB]
          rfl
        rcases dropWhile_getLast? wsp (trimRightL l) with h0 | h1
        · exfalso
          have : jsTrimL l = [] := h0
          rw [this] at hB
          cases hB
        · have h2 : (trimRightL l).getLast? = some c := by
            rw [← h1]
            exact hlast
          have h3 : (l.reverse.dropWhile wsp).head? = some c := by
            rw [← trimRightL_reverse, List.head?_reverse]
            exact h2
          exact head?_dropWhile_false wsp l.reverse c h3
      rw [List.dropWhile_cons, if_neg (by simp [hc])]
      rw [← hB, List.reverse_reverse]
  show jsTrimL (jsTrimL l) = jsTrimL l
  unfold jsTrimL
  rw [show trimRightL ((trimRightL l).dropWhile wsp) = (trimRightL l).dropWhile wsp
        from htr]
  exact dropWhile_idem wsp (trimRightL l)

lemma jsTrim_idem (s : String) : jsTrim (jsTrim s) = jsTrim s := by
  unfold jsTrim
  exact congrArg String.mk (jsTrimL_idem s.data)

lemma jsTrimL_eq_self (l : List Char)
    (hhead : ∀ c t, l = c :: t → wsp c = false)
    (hlast : ∀ c t, l.reverse = c :: t → wsp c = false) : jsTrimL l = l := by
  unfold jsTrimL trimRightL
  cases hr : l.reverse with
  | nil =>
    have h0 : l = [] := by simpa using congrArg List.reverse hr
    subst h0
    rfl
  | cons c r =>
    rw [List.dropWhile_cons, if_neg (by simp [hlast c r hr])]
    rw [← hr, List.reverse_reverse]
    cases hl : l with
    | nil => rfl
    | cons c' t' => rw [List.dropWhile_cons, if_neg (by simp [hhead c' t' hl])]

lemma safeTitleOf_fixed (t : String) (h1 : t ≠ "") (h2 : jsTrim t = t) :
    safeTitleOf (some t) = t := by
  simp only [safeTitleOf]
  rw [if_pos ⟨h1, by rw [h2]; exact h1⟩, h2]

/-! ## Store-shape lemmas -/

lemma updateSessionTitle_ok_histories (st : Store) (now : Nat) (id : String)
    (t : Option String) (st' : Store) (d' : SessionData)
    (h : updateSessionTitle st now id t = .ok (st', d')) :
    st'.histories = st.histories := by
  unfold updateSessionTitle at h
  cases hg : getSession st now id with
  | none => rw [hg] at h; cases h
  | some d =>
    rw [hg] at h
    simp only [Except.ok.injEq, Prod.mk.injEq] at h
    rw [← h.1]

lemma autoGenerateTitle_histories (st : Store) (now : Nat) (id : String)
    (m : Option String) : (autoGenerateTitle st now id m).histories = st.histories := by
  cases m with
  | none => rfl
  | some s =>
    simp only [autoGenerateTitle]
    by_cases h : (jsTrim s).length = 0
    · rw [if_pos h]
    · rw [if_neg h]
      cases hu : updateSessionTitle st now id
          (some (if (jsTrim s).length > 50 then jsTake (jsTrim s) 47 ++ "..."
                 else jsTrim s)) with
      | ok p =>
        obtain ⟨st', d'⟩ := p
        exact updateSessionTitle_ok_histories _ _ _ _ _ _ hu
      | error e =>
        cases hu2 : updateSessionTitle st now id (some "New Chat") with
        | ok p =>
          obtain ⟨st', d'⟩ := p
          exact updateSessionTitle_ok_histories _ _ _ _ _ _ hu2
        | error e2 => rfl

lemma kvSet_kvSet {α : Type} (l : List (String × α)) (k : String) (v v' : α) :
    kvSet (kvSet l k v) k v' = kvSet l k v' := by
  simp only [kvSet, List.filter_cons]
  have h0 : (k != k) = false := by simp
  rw [h0]
  simp [List.filter_filter]

lemma lt_add_sessionTTL (now : Nat) : now < now + sessionTTL := by
  unfold sessionTTL
  omega

lemma safeTitleOf_length_pos (title : Option String) :
    0 < (safeTitleOf title).length := by
  cases title with
  | none => decide
  | some t =>
    simp only [safeTitleOf]
    by_cases h : t ≠ "" ∧ jsTrim t ≠ ""
    · rw [if_pos h]
      exact length_pos_of_ne_empty _ h.2
    · rw [if_neg h]
      decide

lemma updateSessionActivity_ok (st : Store) (now : Nat) (id : String)
    (d : SessionData) (es : Nat)
    (hs : kvGet st.sessions id = some (d, es)) (hsl : now < es) :
    updateSessionActivity st now id =
      ({ sessions := kvSet st.sessions id
           ({ d with lastActivity := now, messageCount := d.messageCount + 1 },
            now + sessionTTL),
         histories :=
           match kvGet st.histories id with
           | some (h, expiry) =>
             if now < expiry then kvSet st.histories id (h, now + sessionTTL)
             else st.histories
           | none => st.histories }, true) := by
  unfold updateSessionActivity
  have hg : getSession st now id = some d := by
    unfold getSession
    rw [hs]
    exact if_pos hsl
  rw [hg]

lemma addMessage_eq (st : Store) (now : Nat) (id : String) (msg : Msg)
    (h : List Msg) (eh : Nat)
    (hh : kvGet st.histories id = some (h, eh)) (hhl : now < eh) :
    addMessage st now id msg =
      .ok ((updateSessionActivity
              { st with
                histories :=
                  kvSet st.histories id
                    (jsSlice h (-50) ++ [setField msg "timestamp" (JVal.n now)],
                      now + sessionTTL) }
              now id).1,
           setField msg "timestamp" (JVal.n now)) := by
  have hg : getChatHistory st now id 50 = some (jsSlice h (-(50 : Int))) := by
    unfold getChatHistory
    rw [hh]
    exact if_pos hhl
  unfold addMessage
  rw [hg]

lemma addMessage_full (st : Store) (now : Nat) (id : String) (msg : Msg)
    (d : SessionData) (es : Nat) (h : List Msg) (eh : Nat)
    (hs : kvGet st.sessions id = some (d, es)) (hsl : now < es)
    (hh : kvGet st.histories id = some (h, eh)) (hhl : now < eh) :
    addMessage st now id msg = .ok
      ({ sessions := kvSet st.sessions id
           ({ d with lastActivity := now, messageCount := d.messageCount + 1 },
            now + sessionTTL),
         histories := kvSet st.histories id
           (jsSlice h (-50) ++ [setField msg "timestamp" (JVal.n now)],
            now + sessionTTL) },
       setField msg "timestamp" (JVal.n now)) := by
  rw [addMessage_eq st now id msg h eh hh hhl]
  have hs' : kvGet ({ st with
      histories := kvSet st.histories id
        (jsSlice h (-50) ++ [setField msg "timestamp" (JVal.n now)],
          now + sessionTTL) } : Store).sessions id = some (d, es) := hs
  rw [updateSessionActivity_ok _ now id d es hs' hsl]
  simp [kvGet_kvSet_self, kvSet_kvSet, lt_add_sessionTTL now]

lemma sessionExists_true (st : Store) (now : Nat) (id : String)
    (d : SessionData) (es : Nat)
    (hs : kvGet st.sessions id = some (d, es)) (hsl : now < es) :
    sessionExists st now id = true := by
  unfold sessionExists
  rw [hs]
  exact decide_eq_true hsl

lemma addMessage_ok_histories (st : Store) (now : Nat) (id : String) (msg : Msg)
    (h : List Msg) (eh : Nat)
    (hh : kvGet st.histories id = some (h, eh)) (hhl : now < eh) :
    ∃ st', addMessage st now id msg
        = .ok (st', setField msg "timestamp" (JVal.n now)) ∧
      kvGet st'.histories id
        = some (jsSlice h (-50) ++ [setField msg "timestamp" (JVal.n now)],
                now + sessionTTL) := by
  rw [addMessage_eq st now id msg h eh hh hhl]
  refine ⟨_, rfl, ?_⟩
  unfold updateSessionActivity
  cases hg : getSession ({ st with
      histories := kvSet st.histories id
        (jsSlice h (-50) ++ [setField msg "timestamp" (JVal.n now)],
          now + sessionTTL) } : Store) now id with
  | none => exact kvGet_kvSet_self _ _ _
  | some d =>
    simp [kvGet_kvSet_self, kvSet_kvSet, lt_add_sessionTTL now]

lemma maybeAutoTitle_histories (st2 : Store) (now : Nat) (csid : String)
    (isNew : Bool) (mt : String) :
    (maybeAutoTitle st2 now csid isNew mt).histories = st2.histories := by
  unfold maybeAutoTitle
  by_cases hb : isNew = true
  · rw [if_pos hb]
    exact autoGenerateTitle_histories _ _ _ _
  · rw [if_neg hb]
    split
    · split
      · exact autoGenerateTitle_histories _ _ _ _
      · rfl
    · rfl

lemma sendMessageCore_run (st1 : Store) (now : Nat) (csid : String)
    (isNew : Bool) (o : Oracles) (mt : String) (h0 : List Msg) (e0 : Nat)
    (hh : kvGet st1.histories csid = some (h0, e0)) (hhl : now < e0) :
    ∃ st4,
      sendMessageCore st1 now csid isNew o mt =
        (st4, Event.userMessage mt csid
           :: (processQueryWithContextStream o mt (some (jsSlice h0 (-50)))
                 (some csid) true).2
           ++ [Event.assistantMessage
                 (processQueryWithContextStream o mt (some (jsSlice h0 (-50)))
                   (some csid) true).1.response
                 (processQueryWithContextStream o mt (some (jsSlice h0 (-50)))
                   (some csid) true).1.sources csid]) ∧
      kvGet st4.histories csid = some
        (jsSlice (jsSlice h0 (-50)
             ++ [setField [("type", JVal.s "user"), ("content", JVal.s mt)]
                   "timestamp" (JVal.n now)]) (-50)
           ++ [setField
                 [("type", JVal.s "assistant"),
                  ("content", JVal.s (processQueryWithContextStream o mt
                     (some (jsSlice h0 (-50))) (some csid) true).1.response),
                  ("sources", JVal.srcs (processQueryWithContextStream o mt
                     (some (jsSlice h0 (-50))) (some csid) true).1.sources)]
                 "timestamp" (JVal.n now)],
         now + sessionTTL) := by
  have hch : getChatHistory st1 now csid 50 = some (jsSlice h0 (-(50 : Int))) := by
    unfold getChatHistory
    rw [hh]
    exact if_pos hhl
  obtain ⟨st2, hadd1, hh2⟩ := addMessage_ok_histories st1 now csid
    [("type", JVal.s "user"), ("content", JVal.s mt)] h0 e0 hh hhl
  have hh3 : kvGet (maybeAutoTitle st2 now csid isNew mt).histories csid
      = some (jsSlice h0 (-50)
          ++ [setField [("type", JVal.s "user"), ("content", JVal.s mt)]
                "timestamp" (JVal.n now)], now + sessionTTL) := by
    rw [maybeAutoTitle_histories]
    exact hh2
  obtain ⟨st4, hadd2, hh4⟩ := addMessage_ok_histories
    (maybeAutoTitle st2 now csid isNew mt) now csid
    [("type", JVal.s "assistant"),
     ("content", JVal.s (processQueryWithContextStream o mt
        (some (jsSlice h0 (-50))) (some csid) true).1.response),
     ("sources", JVal.srcs (processQueryWithContextStream o mt
        (some (jsSlice h0 (-50))) (some csid) true).1.sources)]
    _ _ hh3 (lt_add_sessionTTL now)
  refine ⟨st4, ?_, hh4⟩
  unfold sendMessageCore
  rw [hch]
  simp only [hadd1]
  rw [hadd2]

/-! ## Event-trace lemmas -/

lemma countSC_append (a b : List Event) :
    countStreamComplete (a ++ b) = countStreamComplete a + countStreamComplete b := by
  simp [countStreamComplete, List.countP_append]

lemma countSC_chunkMap (chunks : List String) (sid : Option String) :
    countStreamComplete (chunks.map (fun c => Event.streamChunk c sid)) = 0 := by
  induction chunks with
  | nil => rfl
  | cons c t ih =>
    simpa [countStreamComplete, List.countP_cons, isStreamComplete] using ih

lemma pipeline_one_complete (o : Oracles) (q : String) (ch : Option (List Msg))
    (sid : Option String) :
    countStreamComplete (processQueryWithContextStream o q ch sid true).2 = 1 := by
  obtain ⟨embed, search, gen⟩ := o
  cases embed with
  | error e => rfl
  | ok v =>
    cases search with
    | error e => rfl
    | ok arts =>
      by_cases ha : arts.isEmpty
      · simp [processQueryWithContextStream, ha, countStreamComplete,
          List.countP_cons, isStreamComplete]
      · obtain ⟨chunks, failure⟩ := gen
        cases failure with
        | none =>
          simp [processQueryWithContextStream, generateContextualStreamingResponse,
            ha, countSC_append, countSC_chunkMap, countStreamComplete,
            List.countP_cons, isStreamComplete]
        | some e =>
          simp [processQueryWithContextStream, generateContextualStreamingResponse,
            ha, countSC_append, countSC_chunkMap, countStreamComplete,
            List.countP_cons, isStreamComplete]

lemma completeResponses_chunkMap (chunks : List String) (sid : Option String) :
    completeResponses (chunks.map (fun c => Event.streamChunk c sid)) = [] := by
  induction chunks with
  | nil => rfl
  | cons c t ih => simpa [completeResponses, List.filterMap_cons] using ih

lemma streamChunkTexts_chunkMap (chunks : List String) (sid : Option String) :
    streamChunkTexts (chunks.map (fun c => Event.streamChunk c sid)) = chunks := by
  induction chunks with
  | nil => rfl
  | cons c t ih => simpa [streamChunkTexts, List.filterMap_cons] using ih

lemma countSC_wrap (mt csid : String) (r : String) (srcs : List Source)
    (l : List Event) :
    countStreamComplete (Event.userMessage mt csid :: l
      ++ [Event.assistantMessage r srcs csid]) = countStreamComplete l := by
  simp [countStreamComplete, List.countP_cons, List.countP_append, isStreamComplete]

lemma completeResponses_user_cons (mt csid : String) (l : List Event) :
    completeResponses (Event.userMessage mt csid :: l) = completeResponses l := by
  simp [completeResponses, List.filterMap_cons]

lemma completeResponses_assistant_append (l : List Event) (r : String)
    (srcs : List Source) (csid : String) :
    completeResponses (l ++ [Event.assistantMessage r srcs csid])
      = completeResponses l := by
  simp [completeResponses, List.filterMap_append, List.filterMap_cons]

lemma completeResponses_complete_append (l : List Event) (r : String)
    (srcs : List Source) (sid : Option String) (er : Option String) :
    completeResponses (l ++ [Event.streamComplete r srcs sid er])
      = completeResponses l ++ [r] := by
  simp [completeResponses, List.filterMap_append, List.filterMap_cons]

lemma streamChunkTexts_user_cons (mt csid : String) (l : List Event) :
    streamChunkTexts (Event.userMessage mt csid :: l) = streamChunkTexts l := by
  simp [streamChunkTexts, List.filterMap_cons]

lemma streamChunkTexts_assistant_append (l : List Event) (r : String)
    (srcs : List Source) (csid : String) :
    streamChunkTexts (l ++ [Event.assistantMessage r srcs csid])
      = streamChunkTexts l := by
  simp [streamChunkTexts, List.filterMap_append, List.filterMap_cons]

lemma streamChunkTexts_complete_append (l : List Event) (r : String)
    (srcs : List Source) (sid : Option String) (er : Option String) :
    streamChunkTexts (l ++ [Event.streamComplete r srcs sid er])
      = streamChunkTexts l := by
  simp [streamChunkTexts, List.filterMap_append, List.filterMap_cons]

lemma ne_empty_of_data_ne (s : String) (h : s.data ≠ []) : s ≠ "" := by
  intro he
  exact h (by rw [he])

lemma jsTrimL_head (l : List Char) (c : Char) (t : List Char)
    (h : jsTrimL l = c :: t) : wsp c = false := by
  unfold jsTrimL at h
  exact dropWhile_head_false wsp _ c t h

lemma jsTrim_fixed_truncated (s : String) (hlen : 50 < (jsTrim s).length) :
    jsTrim (jsTake (jsTrim s) 47 ++ "...") = jsTake (jsTrim s) 47 ++ "..." := by
  obtain ⟨c0, t0, hB, hc0⟩ : ∃ c0 t0, jsTrimL s.data = c0 :: t0 ∧ wsp c0 = false := by
    cases hBe : jsTrimL s.data with
    | nil =>
      exfalso
      have : (jsTrim s).length = 0 := by
        show (jsTrimL s.data).length = 0
        rw [hBe]
        rfl
      omega
    | cons c0 t0 => exact ⟨c0, t0, rfl, jsTrimL_head s.data c0 t0 hBe⟩
  have hdata : (jsTake (jsTrim s) 47 ++ "...").data
      = c0 :: (t0.take 46 ++ ['.', '.', '.']) := by
    show (jsTrimL s.data).take 47 ++ ['.', '.', '.']
        = c0 :: (t0.take 46 ++ ['.', '.', '.'])
    rw [hB]
    rfl
  have hfix : jsTrimL ((jsTake (jsTrim s) 47 ++ "...").data)
      = (jsTake (jsTrim s) 47 ++ "...").data := by
    apply jsTrimL_eq_self
    · intro c t hct
      rw [hdata] at hct
      injection hct with h1 _
      rw [← h1]
      exact hc0
    · intro c t hct
      rw [hdata] at hct
      have hrev : (c0 :: (t0.take 46 ++ ['.', '.', '.'])).reverse
          = '.' :: ('.' :: '.' :: (t0.take 46).reverse ++ [c0]) := by
        simp
      rw [hrev] at hct
      injection hct with h1 _
      rw [← h1]
      decide
  show String.mk (jsTrimL ((jsTake (jsTrim s) 47 ++ "...").data))
      = jsTake (jsTrim s) 47 ++ "..."
  rw [hfix]

/-! ## Claim theorems -/

/-- C2: for every input title — including the empty string, a whitespace-only
string, or a missing argument — `createSession` stores a session whose title is
a non-empty string; blank or missing titles are coerced to the default
"New Chat". -/
theorem createSession_never_blank_title (st : Store) (now : Nat)
    (newId : String) (title : Option String) :
    (∃ d, getSession (createSession st now newId title).1 now newId = some d ∧
       0 < d.title.length ∧ d.title = safeTitleOf title) ∧
    safeTitleOf none = "New Chat" ∧ safeTitleOf (some "") = "New Chat" ∧
    safeTitleOf (some "   ") = "New Chat" := by
  have hg : getSession (createSession st now newId title).1 now newId = some
      { id := newId, title := safeTitleOf title, createdAt := now,
        lastActivity := now, messageCount := 0, isActive := true } := by
    unfold createSession getSession
    rw [kvGet_kvSet_self]
    exact if_pos (lt_add_sessionTTL now)
  exact ⟨⟨_, hg, safeTitleOf_length_pos title, rfl⟩, rfl, by decide, by decide⟩

/-- C9: for a session whose history record is live, `getChatHistory` with
limit 0 returns the entire stored history (slicing from index -0 is slicing
from 0), so limit 0 behaves as "no limit". -/
theorem getChatHistory_zero_returns_all (st : Store) (now : Nat) (id : String)
    (h : List Msg) (e : Nat)
    (hh : kvGet st.histories id = some (h, e)) (hl : now < e) :
    getChatHistory st now id 0 = some h := by
  have h1 : getChatHistory st now id 0 = some (jsSlice h (-(0 : Int))) := by
    unfold getChatHistory
    rw [hh]
    exact if_pos hl
  rw [h1, show (-(0 : Int)) = 0 from neg_zero, jsSlice_zero]

/-- Witness for C9 at a concrete store. -/
theorem getChatHistory_zero_returns_all_witness :
    getChatHistory
      ⟨[("s", (⟨"s", "T", 0, 0, 1, true⟩, 100))],
       [("s", ([[("type", JVal.s "user"), ("content", JVal.s "hi")]], 100))]⟩
      5 "s" 0 = some [[("type", JVal.s "user"), ("content", JVal.s "hi")]] :=
  getChatHistory_zero_returns_all
    ⟨[("s", (⟨"s", "T", 0, 0, 1, true⟩, 100))],
     [("s", ([[("type", JVal.s "user"), ("content", JVal.s "hi")]], 100))]⟩
    5 "s" [[("type", JVal.s "user"), ("content", JVal.s "hi")]] 100
    (by decide) (by decide)

/-- C3: the four pipeline entry points are total functions (no failure
escapes them) and every internal failure yields a fixed fallback: an embedding
or search failure yields the constant `errorResponse` (never the raw upstream
error text, which is only recorded in the separate `error` field), and a
generation failure yields the fixed per-variant fallback template; a
successful streaming generation returns the concatenation of the streamed
fragments. -/
theorem pipeline_never_throws :
    (∀ e srch gen q ch sid b,
      (processQueryWithContextStream ⟨.error e, srch, gen⟩ q ch sid b).1
        = { response := errorResponse, sources := [], sessionId := sid,
            error := some e }) ∧
    (∀ v e gen q ch sid b,
      (processQueryWithContextStream ⟨.ok v, .error e, gen⟩ q ch sid b).1
        = { response := errorResponse, sources := [], sessionId := sid,
            error := some e }) ∧
    (∀ v arts chunks e q ch sid b,
      (processQueryWithContextStream ⟨.ok v, .ok arts, ⟨chunks, some e⟩⟩ q ch sid b).1.response
        = if arts.isEmpty then noArticlesResponse else ctxGenFallback arts) ∧
    (∀ v arts chunks q ch sid b,
      (processQueryWithContextStream ⟨.ok v, .ok arts, ⟨chunks, none⟩⟩ q ch sid b).1.response
        = if arts.isEmpty then noArticlesResponse else String.join chunks) ∧
    (∀ e srch gen q sid b,
      (processQueryStream ⟨.error e, srch, gen⟩ q sid b).1
        = { response := errorResponse, sources := [], sessionId := sid,
            error := some e }) ∧
    (∀ v e gen q sid b,
      (processQueryStream ⟨.ok v, .error e, gen⟩ q sid b).1
        = { response := errorResponse, sources := [], sessionId := sid,
            error := some e }) ∧
    (∀ v arts chunks e q sid b,
      (processQueryStream ⟨.ok v, .ok arts, ⟨chunks, some e⟩⟩ q sid b).1.response
        = if arts.isEmpty then noArticlesResponse else streamGenFallback arts) ∧
    (∀ e srch gen q sid,
      processQuery ⟨.error e, srch, gen⟩ q sid
        = { response := errorResponse, sources := [], sessionId := sid,
            error := some e }) ∧
    (∀ v e gen q sid,
      processQuery ⟨.ok v, .error e, gen⟩ q sid
        = { response := errorResponse, sources := [], sessionId := sid,
            error := some e }) ∧
    (∀ v arts chunks e q sid,
      (processQuery ⟨.ok v, .ok arts, ⟨chunks, some e⟩⟩ q sid).response
        = if arts.isEmpty then noArticlesResponse else plainGenFallback arts) ∧
    (∀ e srch gen q ch sid,
      processQueryWithContext ⟨.error e, srch, gen⟩ q ch sid
        = { response := errorResponse, sources := [], sessionId := sid,
            error := some e }) ∧
    (∀ v e gen q ch sid,
      processQueryWithContext ⟨.ok v, .error e, gen⟩ q ch sid
        = { response := errorResponse, sources := [], sessionId := sid,
            error := some e }) ∧
    (∀ v arts chunks e q ch sid,
      (processQueryWithContext ⟨.ok v, .ok arts, ⟨chunks, some e⟩⟩ q ch sid).response
        = if arts.isEmpty then noArticlesResponse else ctxGenFallback arts) := by
  refine ⟨fun _ _ _ _ _ _ _ => rfl, fun _ _ _ _ _ _ _ => rfl, ?_, ?_,
    fun _ _ _ _ _ _ => rfl, fun _ _ _ _ _ _ => rfl, ?_,
    fun _ _ _ _ _ => rfl, fun _ _ _ _ _ => rfl, ?_,
    fun _ _ _ _ _ _ => rfl, fun _ _ _ _ _ _ => rfl, ?_⟩
  · intro v arts chunks e q ch sid b
    by_cases ha : arts.isEmpty
    · simp [processQueryWithContextStream, ha]
    · simp [processQueryWithContextStream, generateContextualStreamingResponse, ha]
  · intro v arts chunks q ch sid b
    by_cases ha : arts.isEmpty
    · simp [processQueryWithContextStream, ha]
    · simp [processQueryWithContextStream, generateContextualStreamingResponse, ha]
  · intro v arts chunks e q sid b
    by_cases ha : arts.isEmpty
    · simp [processQueryStream, ha]
    · simp [processQueryStream, generateStreamingResponse, ha]
  · intro v arts chunks e q sid
    by_cases ha : arts.isEmpty
    · simp [processQuery, ha]
    · simp [processQuery, generateResponse, ha]
  · intro v arts chunks e q ch sid
    by_cases ha : arts.isEmpty
    · simp [processQueryWithContext, ha]
    · simp [processQueryWithContext, generateContextualResponse, ha]

/-- C4: when retrieval yields zero qualifying articles, the contextual
streaming pipeline returns exactly the fixed "no relevant articles" fallback
with an empty source list (and emits it as the single `stream-complete`), and
the `send-message` handler appends exactly the pair (user turn, fallback
assistant turn) at the end of the session's stored history. -/
theorem no_articles_degraded_path (st : Store) (now : Nat) (nid : String)
    (m : String) (s : String) (v : List Int) (gen : GenOutcome)
    (d : SessionData) (es : Nat) (h : List Msg) (eh : Nat)
    (hm : (jsTrim m).length ≠ 0)
    (hs : kvGet st.sessions s = some (d, es)) (hsl : now < es)
    (hh : kvGet st.histories s = some (h, eh)) (hhl : now < eh) :
    (∀ ch, processQueryWithContextStream ⟨.ok v, .ok [], gen⟩ (jsTrim m) ch (some s) true
       = ({ response := noArticlesResponse, sources := [], sessionId := some s,
            error := none },
          [Event.streamComplete noArticlesResponse [] (some s) none])) ∧
    (∃ pre, kvGet (handleSendMessage st now nid ⟨.ok v, .ok [], gen⟩ m (some s)).1.histories s
       = some (pre ++
           [setField [("type", JVal.s "user"), ("content", JVal.s (jsTrim m))]
              "timestamp" (JVal.n now),
            setField [("type", JVal.s "assistant"),
              ("content", JVal.s noArticlesResponse), ("sources", JVal.srcs [])]
              "timestamp" (JVal.n now)],
           now + sessionTTL)) := by
  constructor
  · intro ch
    rfl
  · unfold handleSendMessage
    rw [if_neg hm]
    have hr : resolveTarget st now nid (some s)
        = if sessionExists st now s = true then (st, s, false)
          else ((createSession st now nid none).1, nid, true) := rfl
    rw [hr, if_pos (sessionExists_true st now s d es hs hsl)]
    obtain ⟨st4, he, hk⟩ := sendMessageCore_run st now s false
      ⟨.ok v, .ok [], gen⟩ (jsTrim m) h eh hh hhl
    have hp : processQueryWithContextStream ⟨.ok v, .ok [], gen⟩ (jsTrim m)
        (some (jsSlice h (-50))) (some s) true
        = ({ response := noArticlesResponse, sources := [], sessionId := some s,
             error := none },
           [Event.streamComplete noArticlesResponse [] (some s) none]) := rfl
    rw [hp] at hk
    obtain ⟨ys, hys⟩ := jsSlice_append_last (jsSlice h (-50))
      (setField [("type", JVal.s "user"), ("content", JVal.s (jsTrim m))]
        "timestamp" (JVal.n now))
    rw [hys] at hk
    refine ⟨ys, ?_⟩
    rw [he]
    simpa [List.append_assoc] using hk

/-- Witness for C4 at a concrete one-session store. -/
theorem no_articles_degraded_path_witness :
    ∃ pre, kvGet (handleSendMessage
        ⟨[("s", (⟨"s", "Chat", 0, 0, 0, true⟩, 86400))], [("s", ([], 86400))]⟩
        5 "fresh" ⟨.ok [1], .ok [], ⟨[], none⟩⟩ "hello" (some "s")).1.histories "s"
      = some (pre ++
          [setField [("type", JVal.s "user"), ("content", JVal.s (jsTrim "hello"))]
             "timestamp" (JVal.n 5),
           setField [("type", JVal.s "assistant"),
             ("content", JVal.s noArticlesResponse), ("sources", JVal.srcs [])]
             "timestamp" (JVal.n 5)],
          5 + sessionTTL) :=
  (no_articles_degraded_path
    ⟨[("s", (⟨"s", "Chat", 0, 0, 0, true⟩, 86400))], [("s", ([], 86400))]⟩
    5 "fresh" "hello" "s" [1] ⟨[], none⟩ ⟨"s", "Chat", 0, 0, 0, true⟩ 86400 [] 86400
    (by decide) (by decide) (by decide) (by decide) (by decide)).2

/-- C5 counterexample: a reachable state — session created at time 0, its
title updated at 86000 (which refreshes only the metadata record), observed at
90000 when the history record has expired but the metadata record has not — in
which a valid, non-blank `send-message` on a session that `sessionExists`
accepts emits zero `stream-complete` events (the failed history append is
surfaced as an `error` event instead). -/
theorem stream_complete_missing_cex :
    (match updateSessionTitle (createSession Store.empty 0 "s" (some "My chat")).1
        86000 "s" (some "Renamed") with
     | .ok (st2, _) =>
       some (sessionExists st2 90000 "s",
             countStreamComplete (handleSendMessage st2 90000 "n2"
               ⟨.ok [1], .ok [], ⟨[], none⟩⟩ "hello" (some "s")).2)
     | .error _ => none) = some (true, 0)
    ∧ 0 < (jsTrim "hello").length := by decide

/-- C5 amended: for every `send-message` whose message is non-blank and whose
resolved session has a live history record (in particular, any freshly created
or recreated session), exactly one `stream-complete` event is emitted — also
when retrieval is empty or generation fails — and on successful generation
with a non-empty retrieval the in-order concatenation of the `stream-chunk`
payloads equals the `response` of that single `stream-complete`.  The
unrestricted claim fails in the reachable state of the counterexample, where
the history record has expired while the metadata record is still live. -/
theorem sendMessage_stream_events (st : Store) (now : Nat) (nid : String)
    (o : Oracles) (m : String) (sid : Option String)
    (hm : (jsTrim m).length ≠ 0) (hres : resolvedHistoryLive st now sid) :
    countStreamComplete (handleSendMessage st now nid o m sid).2 = 1 ∧
    (∀ v arts chunks, o = ⟨.ok v, .ok arts, ⟨chunks, none⟩⟩ → arts ≠ [] →
      completeResponses (handleSendMessage st now nid o m sid).2
          = [String.join chunks] ∧
      chunkConcat (handleSendMessage st now nid o m sid).2 = String.join chunks) := by
  have hrun : ∃ csid h0 st4,
      handleSendMessage st now nid o m sid =
        (st4, Event.userMessage (jsTrim m) csid
           :: (processQueryWithContextStream o (jsTrim m) (some (jsSlice h0 (-50)))
                 (some csid) true).2
           ++ [Event.assistantMessage
                 (processQueryWithContextStream o (jsTrim m) (some (jsSlice h0 (-50)))
                   (some csid) true).1.response
                 (processQueryWithContextStream o (jsTrim m) (some (jsSlice h0 (-50)))
                   (some csid) true).1.sources csid]) := by
    unfold handleSendMessage
    rw [if_neg hm]
    cases sid with
    | none =>
      have hrt : resolveTarget st now nid none
          = ((createSession st now nid none).1, nid, true) := rfl
      rw [hrt]
      have hh : kvGet (createSession st now nid none).1.histories nid
          = some ([], now + sessionTTL) := kvGet_kvSet_self _ _ _
      obtain ⟨st4, he, _⟩ := sendMessageCore_run _ now nid true o (jsTrim m) [] _
        hh (lt_add_sessionTTL now)
      exact ⟨nid, [], st4, he⟩
    | some s =>
      have hrt : resolveTarget st now nid (some s)
          = if sessionExists st now s = true then (st, s, false)
            else ((createSession st now nid none).1, nid, true) := rfl
      rw [hrt]
      by_cases hex : sessionExists st now s = true
      · rw [if_pos hex]
        obtain ⟨h0, e0, hh0, hl0⟩ := hres s rfl hex
        obtain ⟨st4, he, _⟩ := sendMessageCore_run st now s false o (jsTrim m)
          h0 e0 hh0 hl0
        exact ⟨s, h0, st4, he⟩
      · rw [if_neg hex]
        have hh : kvGet (createSession st now nid none).1.histories nid
            = some ([], now + sessionTTL) := kvGet_kvSet_self _ _ _
        obtain ⟨st4, he, _⟩ := sendMessageCore_run _ now nid true o (jsTrim m) [] _
          hh (lt_add_sessionTTL now)
        exact ⟨nid, [], st4, he⟩
  obtain ⟨csid, h0, st4, he⟩ := hrun
  constructor
  · rw [he]
    exact (countSC_wrap _ _ _ _ _).trans
      (pipeline_one_complete o (jsTrim m) (some (jsSlice h0 (-50))) (some csid))
  · intro v arts chunks ho hne
    subst ho
    have hemp : arts.isEmpty = false := by
      cases arts with
      | nil => exact absurd rfl hne
      | cons a t => rfl
    have hp : processQueryWithContextStream ⟨.ok v, .ok arts, ⟨chunks, none⟩⟩
        (jsTrim m) (some (jsSlice h0 (-50))) (some csid) true
        = ({ response := String.join chunks, sources := mapSources arts,
             sessionId := some csid, error := none },
           (chunks.map (fun c => Event.streamChunk c (some csid)))
             ++ [Event.streamComplete (String.join chunks) (mapSources arts)
                   (some csid) none]) := by
      simp [processQueryWithContextStream, generateContextualStreamingResponse, hemp]
    rw [hp] at he
    rw [he]
    constructor
    · show completeResponses (Event.userMessage (jsTrim m) csid
          :: ((chunks.map (fun c => Event.streamChunk c (some csid)))
               ++ [Event.streamComplete (String.join chunks) (mapSources arts)
                     (some csid) none])
          ++ [Event.assistantMessage (String.join chunks) (mapSources arts) csid])
        = [String.join chunks]
      simp only [completeResponses_user_cons, completeResponses_assistant_append,
        completeResponses_complete_append, completeResponses_chunkMap]
      rfl
    · show chunkConcat (Event.userMessage (jsTrim m) csid
          :: ((chunks.map (fun c => Event.streamChunk c (some csid)))
               ++ [Event.streamComplete (String.join chunks) (mapSources arts)
                     (some csid) none])
          ++ [Event.assistantMessage (String.join chunks) (mapSources arts) csid])
        = String.join chunks
      unfold chunkConcat
      simp only [streamChunkTexts_user_cons, streamChunkTexts_assistant_append,
        streamChunkTexts_complete_append, streamChunkTexts_chunkMap]

/-- Witness for the amended C5: a fresh session, one retrieved article, and a
two-fragment generation yield exactly one stream-complete whose response is
the concatenation of the fragments. -/
theorem sendMessage_stream_events_witness :
    countStreamComplete (handleSendMessage Store.empty 3 "n"
        ⟨.ok [1], .ok [⟨1, 1, "T", "u", "p", "src", none, none⟩],
         ⟨["a", "b"], none⟩⟩ "Hi" none).2 = 1 ∧
    completeResponses (handleSendMessage Store.empty 3 "n"
        ⟨.ok [1], .ok [⟨1, 1, "T", "u", "p", "src", none, none⟩],
         ⟨["a", "b"], none⟩⟩ "Hi" none).2 = [String.join ["a", "b"]] ∧
    chunkConcat (handleSendMessage Store.empty 3 "n"
        ⟨.ok [1], .ok [⟨1, 1, "T", "u", "p", "src", none, none⟩],
         ⟨["a", "b"], none⟩⟩ "Hi" none).2 = String.join ["a", "b"] := by
  have h := sendMessage_stream_events Store.empty 3 "n"
    ⟨.ok [1], .ok [⟨1, 1, "T", "u", "p", "src", none, none⟩], ⟨["a", "b"], none⟩⟩
    "Hi" none (by decide) (fun s hs _ => nomatch hs)
  have h2 := h.2 [1] [⟨1, 1, "T", "u", "p", "src", none, none⟩] ["a", "b"]
    rfl (by decide)
  exact ⟨h.1, h2.1, h2.2⟩

/-- C8: for a session present in the store and a non-blank first message,
`autoGenerateTitle` sets the title to exactly the trimmed message when it has
at most 50 characters, and to its first 47 characters followed by the ellipsis
marker "..." when longer; the resulting title is never empty. -/
theorem autoGenerateTitle_truncation (st : Store) (now : Nat) (id : String)
    (m : String) (d : SessionData)
    (hg : getSession st now id = some d) (hm : (jsTrim m).length ≠ 0) :
    ∃ d', getSession (autoGenerateTitle st now id (some m)) now id = some d' ∧
      d'.title = (if (jsTrim m).length > 50 then jsTake (jsTrim m) 47 ++ "..."
                  else jsTrim m) ∧
      0 < d'.title.length := by
  have hTne : (if (jsTrim m).length > 50 then jsTake (jsTrim m) 47 ++ "..."
      else jsTrim m) ≠ "" := by
    by_cases hl : (jsTrim m).length > 50
    · rw [if_pos hl]
      apply ne_empty_of_data_ne
      show (jsTrimL m.data).take 47 ++ ['.', '.', '.'] ≠ []
      simp
    · rw [if_neg hl]
      intro he
      exact hm (by rw [he]; rfl)
  have hTfix : jsTrim (if (jsTrim m).length > 50 then jsTake (jsTrim m) 47 ++ "..."
      else jsTrim m) = (if (jsTrim m).length > 50 then jsTake (jsTrim m) 47 ++ "..."
      else jsTrim m) := by
    by_cases hl : (jsTrim m).length > 50
    · rw [if_pos hl]
      exact jsTrim_fixed_truncated m hl
    · rw [if_neg hl]
      exact jsTrim_idem m
  have hT : safeTitleOf (some (if (jsTrim m).length > 50
      then jsTake (jsTrim m) 47 ++ "..." else jsTrim m))
      = (if (jsTrim m).length > 50 then jsTake (jsTrim m) 47 ++ "..."
         else jsTrim m) :=
    safeTitleOf_fixed _ hTne hTfix
  have hu : updateSessionTitle st now id (some (if (jsTrim m).length > 50
      then jsTake (jsTrim m) 47 ++ "..." else jsTrim m)) = .ok ({ st with sessions := kvSet st.sessions id ({ d with title := safeTitleOf (some (if (jsTrim m).length > 50 then jsTake (jsTrim m) 47 ++ "..." else jsTrim m)), lastActivity := now }, now + sessionTTL) }, { d with title := safeTitleOf (some (if (jsTrim m).length > 50 then jsTake (jsTrim m) 47 ++ "..." else jsTrim m)), lastActivity := now }) := by
    unfold updateSessionTitle
    rw [hg]
  simp only [autoGenerateTitle]
  rw [if_neg hm]
  simp only [hu]
  refine ⟨{ d with title := safeTitleOf (some (if (jsTrim m).length > 50 then jsTake (jsTrim m) 47 ++ "..." else jsTrim m)), lastActivity := now }, ?_, ?_, ?_⟩
  · unfold getSession
    rw [kvGet_kvSet_self]
    exact if_pos (lt_add_sessionTTL now)
  · exact hT
  · show 0 < (safeTitleOf (some (if (jsTrim m).length > 50
        then jsTake (jsTrim m) 47 ++ "..." else jsTrim m))).length
    rw [hT]
    exact length_pos_of_ne_empty _ hTne

/-- Witness for C8: the short message of the spec scenario becomes the title
verbatim, and a 60-character message is truncated to 47 characters plus the
ellipsis marker. -/
theorem autoGenerateTitle_truncation_witness :
    (∃ d', getSession (autoGenerateTitle (createSession Store.empty 0 "s" none).1
        2 "s" (some "Tell me about the economy")) 2 "s" = some d' ∧
      d'.title = (if (jsTrim "Tell me about the economy").length > 50
                  then jsTake (jsTrim "Tell me about the economy") 47 ++ "..."
                  else jsTrim "Tell me about the economy") ∧
      0 < d'.title.length) ∧
    (∃ d', getSession (autoGenerateTitle (createSession Store.empty 0 "s" none).1
        2 "s" (some "aaaaaaaaaaaaaaaaaaaaaaaaaaaaaaaaaaaaaaaaaaaaaaaaaaaaaaaaaaaa"))
        2 "s" = some d' ∧
      d'.title = (if (jsTrim "aaaaaaaaaaaaaaaaaaaaaaaaaaaaaaaaaaaaaaaaaaaaaaaaaaaaaaaaaaaa").length > 50
                  then jsTake (jsTrim "aaaaaaaaaaaaaaaaaaaaaaaaaaaaaaaaaaaaaaaaaaaaaaaaaaaaaaaaaaaa") 47 ++ "..."
                  else jsTrim "aaaaaaaaaaaaaaaaaaaaaaaaaaaaaaaaaaaaaaaaaaaaaaaaaaaaaaaaaaaa") ∧
      0 < d'.title.length) :=
  ⟨autoGenerateTitle_truncation (createSession Store.empty 0 "s" none).1 2 "s"
      "Tell me about the economy" ⟨"s", "New Chat", 0, 0, 0, true⟩
      (by decide) (by decide),
   autoGenerateTitle_truncation (createSession Store.empty 0 "s" none).1 2 "s"
      "aaaaaaaaaaaaaaaaaaaaaaaaaaaaaaaaaaaaaaaaaaaaaaaaaaaaaaaaaaaa"
      ⟨"s", "New Chat", 0, 0, 0, true⟩ (by decide) (by decide)⟩

/-- C6 counterexample: for the non-blank title " a" (a space then a letter),
`updateSessionTitle` followed by `getSession` yields the trimmed title "a",
not " a" itself, so the round-trip claimed for every non-blank title fails. -/
theorem updateSessionTitle_roundtrip_cex :
    (match updateSessionTitle (createSession Store.empty 0 "s" (some "Chat")).1
        1 "s" (some " a") with
     | .ok (st', _) => (getSession st' 1 "s").map SessionData.title
     | .error _ => none) = some "a"
    ∧ 0 < (jsTrim " a").length
    ∧ ((some "a" : Option String) == some " a") = false := by decide

/-- C6 amended: for a session present in the store, `updateSessionTitle(id, T)`
followed by `getSession(id)` yields the trimmed title `T.trim()` when `T` is
non-blank (hence `T` itself exactly when `T` carries no surrounding
whitespace), and the default title "New Chat" when `T` is blank. -/
theorem updateSessionTitle_roundtrip_trim (st : Store) (now : Nat) (id : String)
    (T : String) (d : SessionData) (hg : getSession st now id = some d) :
    ∃ st' d', updateSessionTitle st now id (some T) = .ok (st', d') ∧
      getSession st' now id = some d' ∧
      d'.title = (if T ≠ "" ∧ jsTrim T ≠ "" then jsTrim T else "New Chat") := by
  have hu : updateSessionTitle st now id (some T) = .ok ({ st with sessions := kvSet st.sessions id ({ d with title := safeTitleOf (some T), lastActivity := now }, now + sessionTTL) }, { d with title := safeTitleOf (some T), lastActivity := now }) := by
    unfold updateSessionTitle
    rw [hg]
  refine ⟨_, _, hu, ?_, rfl⟩
  unfold getSession
  rw [kvGet_kvSet_self]
  exact if_pos (lt_add_sessionTTL now)

/-- Witness for the amended C6 at a concrete session and title. -/
theorem updateSessionTitle_roundtrip_trim_witness :
    ∃ st' d', updateSessionTitle (createSession Store.empty 0 "s" (some "Chat")).1
        3 "s" (some " hello ") = .ok (st', d') ∧
      getSession st' 3 "s" = some d' ∧
      d'.title = (if " hello " ≠ "" ∧ jsTrim " hello " ≠ "" then jsTrim " hello "
                  else "New Chat") :=
  updateSessionTitle_roundtrip_trim (createSession Store.empty 0 "s" (some "Chat")).1
    3 "s" " hello " ⟨"s", "Chat", 0, 0, 0, true⟩ (by decide)

/-- C7 counterexample: `updateSessionTitle` at time 100 re-`setex`es only the
metadata record; the history record of the session still expires at the
original 86400, not at the full window 100 + 86400, so not every write resets
the expiry of both records. -/
theorem sliding_expiry_cex :
    (match updateSessionTitle (createSession Store.empty 0 "s" (some "Chat")).1
        100 "s" (some "Renamed") with
     | .ok (st', _) => kvGet st'.histories "s"
     | .error _ => none) = some ([], 86400)
    ∧ ((some (([] : List Msg), 86400) : Option (List Msg × Nat))
        == some ([], 100 + sessionTTL)) = false := by decide

/-- C7 amended: `addMessage` resets the expiry of both the metadata and the
history record to the full retention window; `updateSessionTitle` resets only
the metadata record and leaves the histories untouched; `clearChatHistory`
resets only the history record and leaves the session metadata untouched. -/
theorem write_expiry_behavior (st : Store) (now : Nat) (id : String)
    (T : String) (msg : Msg) (d : SessionData) (es : Nat) (h : List Msg)
    (eh : Nat)
    (hs : kvGet st.sessions id = some (d, es)) (hsl : now < es)
    (hh : kvGet st.histories id = some (h, eh)) (hhl : now < eh) :
    (∃ st' m', addMessage st now id msg = .ok (st', m') ∧
       (∃ d', kvGet st'.sessions id = some (d', now + sessionTTL)) ∧
       (∃ h', kvGet st'.histories id = some (h', now + sessionTTL))) ∧
    (∃ st' d', updateSessionTitle st now id (some T) = .ok (st', d') ∧
       kvGet st'.sessions id = some (d', now + sessionTTL) ∧
       st'.histories = st.histories) ∧
    ((clearChatHistory st now id).sessions = st.sessions ∧
       kvGet (clearChatHistory st now id).histories id = some ([], now + sessionTTL)) := by
  refine ⟨⟨_, _, addMessage_full st now id msg d es h eh hs hsl hh hhl, ?_, ?_⟩,
    ?_, rfl, ?_⟩
  · exact ⟨_, kvGet_kvSet_self _ _ _⟩
  · exact ⟨_, kvGet_kvSet_self _ _ _⟩
  · have hg : getSession st now id = some d := by
      unfold getSession
      rw [hs]
      exact if_pos hsl
    have hu : updateSessionTitle st now id (some T) = .ok ({ st with sessions := kvSet st.sessions id ({ d with title := safeTitleOf (some T), lastActivity := now }, now + sessionTTL) }, { d with title := safeTitleOf (some T), lastActivity := now }) := by
      unfold updateSessionTitle
      rw [hg]
    exact ⟨_, _, hu, kvGet_kvSet_self _ _ _, rfl⟩
  · show kvGet (kvSet st.histories id ([], now + sessionTTL)) id = some ([], now + sessionTTL)
    exact kvGet_kvSet_self _ _ _

/-- Witness for the amended C7 at a concrete session. -/
theorem write_expiry_behavior_witness :
    (∃ st' m', addMessage (createSession Store.empty 0 "s" (some "Chat")).1
        7 "s" [("type", JVal.s "user")] = .ok (st', m') ∧
       (∃ d', kvGet st'.sessions "s" = some (d', 7 + sessionTTL)) ∧
       (∃ h', kvGet st'.histories "s" = some (h', 7 + sessionTTL))) ∧
    (∃ st' d', updateSessionTitle (createSession Store.empty 0 "s" (some "Chat")).1
        7 "s" (some "T2") = .ok (st', d') ∧
       kvGet st'.sessions "s" = some (d', 7 + sessionTTL) ∧
       st'.histories = (createSession Store.empty 0 "s" (some "Chat")).1.histories) ∧
    ((clearChatHistory (createSession Store.empty 0 "s" (some "Chat")).1 7 "s").sessions
        = (createSession Store.empty 0 "s" (some "Chat")).1.sessions ∧
       kvGet (clearChatHistory (createSession Store.empty 0 "s" (some "Chat")).1
          7 "s").histories "s" = some ([], 7 + sessionTTL)) :=
  write_expiry_behavior (createSession Store.empty 0 "s" (some "Chat")).1
    7 "s" "T2" [("type", JVal.s "user")] ⟨"s", "Chat", 0, 0, 0, true⟩ 86400 [] 86400
    (by decide) (by decide) (by decide) (by decide)

/-- C1 counterexample: a reachable state (create, add a message, clear the
history, add another message) in which `messageCount` is 2 after a successful
`addMessage` while `getChatHistory` with an unbounded limit returns 1 turn:
`clearChatHistory` empties the history without resetting `messageCount`. -/
theorem messageCount_history_mismatch_cex :
    (match addMessage (createSession Store.empty 0 "s" (some "Chat")).1 1 "s"
        [("type", JVal.s "user"), ("content", JVal.s "m1")] with
     | .ok (st2, _) =>
       (match addMessage (clearChatHistory st2 2 "s") 3 "s"
           [("type", JVal.s "user"), ("content", JVal.s "m2")] with
        | .ok (st4, _) =>
          some ((getSession st4 3 "s").map SessionData.messageCount,
                (getChatHistory st4 3 "s" 1000000).map List.length)
        | .error _ => none)
     | .error _ => none) = some (some 2, some 1)
    ∧ ((2 : Nat) == 1) = false := by decide

/-- C1 amended: in a state where the session and its history record are live,
the stored history length equals `messageCount`, and `messageCount` is at most
50 (so the default 50-turn read window inside `addMessage` is not truncating),
a successful `addMessage` leaves `messageCount` equal to the number of turns
returned by `getChatHistory` with any limit that covers the whole history,
namely the old count plus one.  The unrestricted claim fails because
`clearChatHistory` empties the history without resetting `messageCount` and
because `addMessage` re-reads the history through the default 50-turn
window. -/
theorem addMessage_count_matches_history (st : Store) (now : Nat) (id : String)
    (msg : Msg) (d : SessionData) (es : Nat) (h : List Msg) (eh : Nat)
    (hs : kvGet st.sessions id = some (d, es)) (hsl : now < es)
    (hh : kvGet st.histories id = some (h, eh)) (hhl : now < eh)
    (hlen : h.length = d.messageCount) (hle : d.messageCount ≤ 50)
    (L : Int) (hL : (h.length : Int) + 1 ≤ L) :
    ∃ st' m', addMessage st now id msg = .ok (st', m') ∧
      (getSession st' now id).map SessionData.messageCount
        = some (d.messageCount + 1) ∧
      (getChatHistory st' now id L).map List.length = some (d.messageCount + 1) := by
  refine ⟨_, _, addMessage_full st now id msg d es h eh hs hsl hh hhl, ?_, ?_⟩
  · simp [getSession, kvGet_kvSet_self, lt_add_sessionTTL now]
  · have h50 : jsSlice h (-(50 : Int)) = h := jsSlice_of_le h 50 (by omega)
    have hfull : getChatHistory
        ({ sessions := kvSet st.sessions id
             ({ d with lastActivity := now, messageCount := d.messageCount + 1 },
              now + sessionTTL),
           histories := kvSet st.histories id
             (jsSlice h (-50) ++ [setField msg "timestamp" (JVal.n now)],
              now + sessionTTL) } : Store) now id L
        = some (jsSlice (jsSlice h (-50) ++ [setField msg "timestamp" (JVal.n now)]) (-L)) := by
      unfold getChatHistory
      rw [kvGet_kvSet_self]
      exact if_pos (lt_add_sessionTTL now)
    rw [hfull, h50]
    have hwhole : jsSlice (h ++ [setField msg "timestamp" (JVal.n now)]) (-L) =
        h ++ [setField msg "timestamp" (JVal.n now)] := by
      apply jsSlice_of_le
      simp only [List.length_append, List.length_cons, List.length_nil]
      push_cast
      omega
    rw [hwhole]
    simp [hlen]

/-- Witness for the amended C1 at a concrete one-turn session. -/
theorem addMessage_count_matches_history_witness :
    ∃ st' m', addMessage
        ⟨[("s", (⟨"s", "Chat", 0, 0, 1, true⟩, 86400))],
         [("s", ([[("type", JVal.s "user"), ("timestamp", JVal.n 0)]], 86400))]⟩
        9 "s" [("type", JVal.s "user"), ("content", JVal.s "m2")] = .ok (st', m') ∧
      (getSession st' 9 "s").map SessionData.messageCount = some 2 ∧
      (getChatHistory st' 9 "s" 70).map List.length = some 2 :=
  addMessage_count_matches_history
    ⟨[("s", (⟨"s", "Chat", 0, 0, 1, true⟩, 86400))],
     [("s", ([[("type", JVal.s "user"), ("timestamp", JVal.n 0)]], 86400))]⟩
    9 "s" [("type", JVal.s "user"), ("content", JVal.s "m2")]
    ⟨"s", "Chat", 0, 0, 1, true⟩ 86400
    [[("type", JVal.s "user"), ("timestamp", JVal.n 0)]] 86400
    (by decide) (by decide) (by decide) (by decide) (by decide) (by decide)
    70 (by decide)

/-- C10: `addMessage` stores the caller-supplied turn with every field other
than `timestamp` unchanged, while `timestamp` is always overwritten with the
store-assigned creation time — even when the caller supplied a timestamp of
their own; the stored turn is appended as the last element of the history. -/
theorem addMessage_frame (st : Store) (now : Nat) (id : String) (msg : Msg)
    (d : SessionData) (es : Nat) (h : List Msg) (eh : Nat)
    (hs : kvGet st.sessions id = some (d, es)) (hsl : now < es)
    (hh : kvGet st.histories id = some (h, eh)) (hhl : now < eh) :
    ∃ st', addMessage st now id msg
        = .ok (st', setField msg "timestamp" (JVal.n now)) ∧
      getField (setField msg "timestamp" (JVal.n now)) "timestamp"
        = some (JVal.n now) ∧
      (∀ k, k ≠ "timestamp" →
        getField (setField msg "timestamp" (JVal.n now)) k = getField msg k) ∧
      ∃ h', kvGet st'.histories id = some (h', now + sessionTTL) ∧
        h'.getLast? = some (setField msg "timestamp" (JVal.n now)) := by
  refine ⟨_, addMessage_full st now id msg d es h eh hs hsl hh hhl,
    getField_setField_self msg "timestamp" (JVal.n now),
    fun k hk => getField_setField_ne msg "timestamp" k (JVal.n now) hk,
    _, kvGet_kvSet_self _ _ _, ?_⟩
  simp

/-- Witness for C10: a caller-supplied timestamp of 999 is overwritten with
the store clock 5 while the content field survives unchanged. -/
theorem addMessage_frame_witness :
    getField (setField [("content", JVal.s "x"), ("timestamp", JVal.n 999)]
        "timestamp" (JVal.n 5)) "timestamp" = some (JVal.n 5)
    ∧ getField (setField [("content", JVal.s "x"), ("timestamp", JVal.n 999)]
        "timestamp" (JVal.n 5)) "content"
      = getField [("content", JVal.s "x"), ("timestamp", JVal.n 999)] "content" := by
  have hw := addMessage_frame (createSession Store.empty 0 "s" (some "Chat")).1
    5 "s" [("content", JVal.s "x"), ("timestamp", JVal.n 999)]
    ⟨"s", "Chat", 0, 0, 0, true⟩ 86400 [] 86400
    (by decide) (by decide) (by decide) (by decide)
  obtain ⟨st', _, h1, h2, _⟩ := hw
  exact ⟨h1, h2 "content" (by decide)⟩

end NewsAssistant
